import Mathlib

/-!
Verification of the oca-port engine (sebalix/oca-port).

Shallow embedding of `oca_port/__init__.py` (App), `oca_port/migrate_addon.py`
(MigrateAddon) and `oca_port/utils/settings.py` (Settings).  Side-effecting
operations on the git repository, prompts and prints are represented as an
explicit trace of `Effect`s; Python exceptions are explicit `PyError` values.
Collaborators whose source files are not part of the studied tree
(`utils/git.py`, `utils/storage.py`, `utils/misc.py`, `port_addon_pr.py`) are
modelled from the specification and clearly marked as such.
-/

namespace OcaPort

deriving instance DecidableEq for Except

/- Modelled from the spec: the `bcolors` ANSI constants of `utils/misc.py`
(colored terminal output is an external collaborator, §1).  The concrete escape
values are irrelevant to the claims; only their presence in messages is. -/
namespace bc

def HEADER : String := "\x1b[95m"

def OKCYAN : String := "\x1b[96m"

def FAIL : String := "\x1b[91m"

def BOLD : String := "\x1b[1m"

def DIM : String := "\x1b[2m"

def END : String := "\x1b[0m"

def ENDC : String := "\x1b[0m"

def ENDD : String := "\x1b[0m"

end bc

/-- Modelled from the spec: `Branch` of `utils/git.py` (not in the studied
tree).  A branch reference names a branch plus an optional remote (§3
BranchRef). -/
structure Branch where
  name : String
  remote : Option String
deriving DecidableEq, Repr

/-- Modelled from the spec: `Branch.ref()` resolves to a fully-qualified
revision reference, `remote/name` when a remote is attached, else `name`. -/
def Branch.ref (b : Branch) : String :=
  match b.remote with
  | some r => r ++ "/" ++ b.name
  | none => b.name

/-- The git repository as seen through the narrow interface the engine uses
(§6 version-control subsystem): configured remotes, local heads, current
checkout, the top-level tree of each revision, remote URLs and the dirty /
untracked state queried by `Settings.__post_init__` and `MigrateAddon.run`. -/
structure GitRepo where
  remotes : List String
  heads : List String
  current : String
  /-- Top-level directories of the tree at a revision:
  `[t.path for t in repo.commit(ref).tree.trees]`. -/
  treeDirs : String → List String
  /-- `repo.remotes[r].url`, only used in the verbose fetch message. -/
  remoteUrl : String → String
  /-- Uncommitted changes to tracked files. -/
  dirtyWorktree : Bool
  /-- `repo.untracked_files`. -/
  untrackedFiles : List String

/-- `repo.is_dirty(untracked_files=True)`: modified tracked files or any
untracked file. -/
def GitRepo.isDirtyAll (r : GitRepo) : Bool :=
  r.dirtyWorktree || !r.untrackedFiles.isEmpty

/-- One observable action of the program: repository operations, prompts,
prints, storage/cache accesses.  The `invokePort` / `invokeMigrate` markers
record which of the two top-level paths `App.run` enters. -/
inductive Effect where
  | openRepo (path : String)
  | fetch (remote branch : String)
  | printMsg (msg : String)
  | printTips (blacklisted : Bool)
  | prompt (msg : String)
  | queryBlacklist (addon branch : String)
  | blacklistWrite (addon branch : String)
  | commitStorage
  | checkout (branch : String)
  | createBranch (name startRef : String)
  | deleteBranch (name : String)
  | formatPatch (fromRef toRef path : String)
  | applyPatches (threeWay keepSubject : Bool)
  | runPreCommit (addon : String)
  | portFollowUp
  | invokePort
  | invokeMigrate
  | clearCache
deriving DecidableEq, Repr

/-- Effects that may change the repository, its working tree or the persisted
storage; prompts, prints and read-only queries are excluded. -/
def Effect.mutatesRepo : Effect → Bool
  | .blacklistWrite _ _ => true
  | .commitStorage => true
  | .checkout _ => true
  | .createBranch _ _ => true
  | .deleteBranch _ => true
  | .applyPatches _ _ => true
  | .runPreCommit _ => true
  | .portFollowUp => true
  | .clearCache => true
  | _ => false

/-- Semantics of the branch-state-changing effects on the repository
(`git checkout`, `git checkout -b`, `repo.delete_head`). -/
def applyEffect (repo : GitRepo) : Effect → GitRepo
  | .checkout b => { repo with current := b }
  | .createBranch n _ => { repo with heads := repo.heads ++ [n], current := n }
  | .deleteBranch n => { repo with heads := repo.heads.erase n }
  | _ => repo

/-- Replay a trace of effects on the repository state. -/
def applyEffects (repo : GitRepo) (l : List Effect) : GitRepo :=
  l.foldl applyEffect repo

/-- A Python exception escaping the code under study. -/
inductive PyError where
  | valueError (msg : String)
  | usageError (msg : String)
  | clickException (msg : String)
  | attributeError (cls attr : String)
  | gitCommandError (cmd : String)
deriving DecidableEq, Repr

/-- Outcome of a run: a normal return value, a `SystemExit` with a status
code, or an uncaught exception. -/
inductive RunResult where
  | ok (b : Bool)
  | exited (code : Nat)
  | error (e : PyError)
deriving DecidableEq, Repr

/-! ### Settings (`utils/settings.py`) -/

/-- The keyword arguments passed to the `Settings` dataclass constructor,
before `__post_init__` runs.  Optional strings model parameters whose default
is `None`. -/
structure SettingsArgs where
  from_branch : String
  to_branch : String
  addon : String
  repo_path : String
  fork : Option String := none
  repo_name : Option String := none
  user_org : Option String := none
  upstream_org : String := "OCA"
  upstream : String := "origin"
  verbose : Bool := false
  non_interactive : Bool := false
  no_cache : Bool := false
  clear_cache : Bool := false
  cli : Bool := false
deriving DecidableEq, Repr

/-- Python truthiness of an optional string: `None` and `""` are falsy. -/
def strOptFalsy : Option String → Bool
  | none => true
  | some s => s = ""

/-- Split a character list at every occurrence of `c` (the semantics of
`str.split` on one character, written with structural recursion so it
evaluates inside the kernel). -/
def splitOnCharAux (c : Char) : List Char → List (List Char)
  | [] => [[]]
  | x :: xs =>
    match splitOnCharAux c xs with
    | [] => if x = c then [[], []] else [[x]]
    | y :: ys => if x = c then [] :: y :: ys else (x :: y) :: ys

/-- `s.split("/")` as a list of strings. -/
def splitOnSlash (s : String) : List String :=
  (splitOnCharAux '/' s.data).map String.mk

/-- `"/".join(l)` (inverse of `splitOnSlash`). -/
def joinSlash : List String → String
  | [] => ""
  | [x] => x
  | x :: xs => x ++ "/" ++ joinSlash xs

/-- `pathlib.Path(p).name`: the final non-empty path component. -/
def pathName (p : String) : String :=
  (((splitOnSlash p).filter (fun c => c ≠ "")).getLast?).getD ""

/-- The repository name computed by `__post_init__`: the given `repo_name`
when truthy, else the final component of `repo_path`. -/
def settingsRepoName (a : SettingsArgs) : String :=
  if strOptFalsy a.repo_name then pathName a.repo_path else a.repo_name.getD ""

/-- A branch field of a constructed `Settings`: `__post_init__` replaces the
raw string by a `Branch` object, except on the path where the `ValueError`
raised while building a `Branch` is caught and not re-raised, which leaves the
field as the original string. -/
inductive BranchField where
  | raw (s : String)
  | resolved (b : Branch)
deriving DecidableEq, Repr

/-- The errors `Settings.__post_init__` can raise: plain `ValueError`,
`ForkValueError(repo_name, fork)` and `RemoteBranchValueError(repo_name,
remote)`. -/
inductive SettingsError where
  | valueError (msg : String)
  | forkValueError (repo_name fork : String)
  | remoteBranchValueError (repo_name remote : String)
deriving DecidableEq, Repr

/-- A fully constructed `Settings` object (the dataclass fields after
`__post_init__`). -/
structure Settings where
  from_branch : BranchField
  to_branch : BranchField
  addon : String
  repo_path : String
  fork : Option String
  repo_name : String
  user_org : Option String
  upstream_org : String
  upstream : String
  verbose : Bool
  non_interactive : Bool
  no_cache : Bool
  clear_cache : Bool
  cli : Bool

/-- Modelled from the spec: `Branch(repo, name, default_remote=...)` of
`utils/git.py` (not in the studied tree).  A name of the form `remote/branch`
carries its own remote, otherwise the default remote is used; resolving must
yield a valid reference or fail with an error carrying the remote that is not
configured on the repository (§3 BranchRef invariant, §7 resolution errors;
`Settings.__post_init__` reads that remote from `exc.args[1]`). -/
def mkBranch (repo : GitRepo) (name : String) (defaultRemote : String) :
    Except String Branch :=
  match splitOnSlash name with
  | [] => .ok ⟨name, none⟩
  | [_] =>
    if defaultRemote = "" then .ok ⟨name, none⟩
    else if defaultRemote ∈ repo.remotes then .ok ⟨name, some defaultRemote⟩
    else .error defaultRemote
  | r :: rest =>
    let bname := joinSlash rest
    if r ∈ repo.remotes then .ok ⟨bname, some r⟩ else .error r

/-- Assemble the `Settings` record produced on the non-raising paths of
`__post_init__`; `non_interactive` is forced to `True` when `cli` is false
("Force non-interactive mode is we are not in CLI mode"). -/
def mkSettings (a : SettingsArgs) (userOrg : Option String)
    (fb tb : BranchField) : Settings :=
  { from_branch := fb
    to_branch := tb
    addon := a.addon
    repo_path := a.repo_path
    fork := a.fork
    repo_name := settingsRepoName a
    user_org := userOrg
    upstream_org := a.upstream_org
    upstream := a.upstream
    verbose := a.verbose
    non_interactive := if a.cli then a.non_interactive else true
    no_cache := a.no_cache
    clear_cache := a.clear_cache
    cli := a.cli }

/-- `Settings.__post_init__` (utils/settings.py, lines 63-95): validate
`repo_path`, default `repo_name`, open the repository, refuse a dirty work
tree, default `user_org` to `fork`, check the fork remote, turn both branch
strings into `Branch` objects (re-raising as `RemoteBranchValueError` only
when the remote carried by the caught `ValueError` is not configured), and
force non-interactive mode outside the CLI.  The construction performs no
mutating operation; its only repository interaction is opening it. -/
def settingsInit (a : SettingsArgs) (repo : GitRepo) :
    Except SettingsError Settings × List Effect :=
  if a.repo_path = "" then
    (.error (.valueError "\x27repo_path\x27 has to be set."), [])
  else
    let effs : List Effect := [.openRepo a.repo_path]
    if repo.isDirtyAll then
      (.error (.valueError "changes not committed detected in this repository."),
       effs)
    else
      let userOrg := if strOptFalsy a.user_org then a.fork else a.user_org
      if strOptFalsy a.fork = false ∧ (a.fork.getD "") ∉ repo.remotes then
        (.error (.forkValueError (settingsRepoName a) (a.fork.getD "")), effs)
      else
        match mkBranch repo a.from_branch a.upstream with
        | .error r =>
          if r ∈ repo.remotes then
            -- the caught ValueError is swallowed: both fields stay raw strings
            (.ok (mkSettings a userOrg (.raw a.from_branch) (.raw a.to_branch)),
             effs)
          else
            (.error (.remoteBranchValueError (settingsRepoName a) r), effs)
        | .ok fb =>
          match mkBranch repo a.to_branch a.upstream with
          | .error r =>
            if r ∈ repo.remotes then
              (.ok (mkSettings a userOrg (.resolved fb) (.raw a.to_branch)),
               effs)
            else
              (.error (.remoteBranchValueError (settingsRepoName a) r), effs)
          | .ok tb =>
            (.ok (mkSettings a userOrg (.resolved fb) (.resolved tb)), effs)

/-- `prepare_remote_error_msg` (oca_port/__init__.py, lines 145-156): the
fatal CLI message naming the missing remote and the exact `git remote add`
remediation commands. -/
def prepare_remote_error_msg (repo_name remote : String) : String :=
  "No remote " ++ bc.FAIL ++ remote ++ bc.END ++ " in the current repository.\n"
    ++ "To add it:\n"
    ++ "\t# This mode requires an SSH key in the GitHub account\n"
    ++ "\t" ++ bc.DIM ++ "$ git remote add " ++ remote ++ " "
    ++ "git@github.com:" ++ remote ++ "/" ++ repo_name ++ ".git" ++ bc.END ++ "\n"
    ++ "   Or:\n"
    ++ "\t# This will require to enter user/password each time\n"
    ++ "\t" ++ bc.DIM ++ "$ git remote add " ++ remote ++ " "
    ++ "https://github.com/" ++ remote ++ "/" ++ repo_name ++ ".git" ++ bc.END

/-! ### MigrateAddon (`migrate_addon.py`) and App (`oca_port/__init__.py`) -/

/-- The settings fields `App.run` and `MigrateAddon.run` actually read, after
construction succeeded with both branches resolved (the only way `App`
reaches `run`). -/
structure RunSettings where
  addon : String
  from_branch : Branch
  to_branch : Branch
  fork : Option String
  upstream_org : String
  repo_name : String
  user_org : String
  verbose : Bool
  non_interactive : Bool
  cli : Bool
  clear_cache : Bool
deriving DecidableEq, Repr

/-- The answers of the external collaborators consulted during a run: the
blacklist store (`storage.is_addon_blacklisted()`), the user's answers to the
three `click.confirm` prompts, whether `git am` succeeds, and (modelled from
the spec) whether the port path finds pull requests to port. -/
structure RunCtx where
  blacklisted : Option String
  confirmMigrate : Bool
  confirmBlacklist : Bool
  confirmRecreate : Bool
  amOk : Bool
  portsAvailable : Bool
deriving DecidableEq, Repr

/-- `MIG_BRANCH_NAME.format(branch=to_branch.name[:4], addon=addon)`. -/
def migBranchName (s : RunSettings) : String :=
  s.to_branch.name.take 4 ++ "-mig-" ++ s.addon

/-- The message printed when the addon is blacklisted for the target branch
(migrate_addon.py, lines 76-80). -/
def blacklistedMsg (s : RunSettings) (reason : String) : String :=
  bc.DIM ++ "Migration of " ++ bc.BOLD ++ s.addon ++ bc.END ++ " "
    ++ bc.DIM ++ "to " ++ s.to_branch.name ++ " "
    ++ "blacklisted (" ++ reason ++ ")" ++ bc.ENDD

/-- The `click.confirm` question asked before migrating (lines 93-97). -/
def confirmMigrateMsg (s : RunSettings) : String :=
  "Migrate " ++ bc.BOLD ++ s.addon ++ bc.END ++ " "
    ++ "from " ++ bc.BOLD ++ s.from_branch.name ++ bc.END ++ " "
    ++ "to " ++ bc.BOLD ++ s.to_branch.name ++ bc.END ++ "?"

/-- Modelled from the spec: the confirmation question asked by
`storage.blacklist_addon(confirm=True)` (utils/storage.py is not in the
studied tree; §3 BlacklistRecord: "Created interactively when a user declines
an action"). -/
def blacklistPromptMsg (s : RunSettings) : String :=
  "Blacklist " ++ s.addon ++ " on " ++ s.to_branch.name ++ "?"

/-- The question asked when the migration branch already exists
(lines 142-145). -/
def recreateMsg (s : RunSettings) : String :=
  "Branch " ++ bc.BOLD ++ migBranchName s ++ bc.END ++ " already exists, "
    ++ "recreate it?\n(⚠️  you will lose the existing branch)"

/-- The message printed when creating the migration branch (lines 152-155). -/
def createMigMsg (s : RunSettings) : String :=
  "\tCreate branch " ++ bc.BOLD ++ migBranchName s ++ bc.END ++ " "
    ++ "from " ++ s.to_branch.ref ++ "..."

/-- The message printed once `git am` succeeded (lines 179-182); the patch
count printed just before applying is elided (it is the size of a temporary
directory listing, external to the model). -/
def migratedMsg (s : RunSettings) : String :=
  "\t\tCommits history of " ++ bc.BOLD ++ s.addon ++ bc.END ++ " "
    ++ "has been migrated."

/-- `MigrateAddon._checkout_base_branch` (lines 127-137): check out the local
target branch when it exists, otherwise create it from the target
reference. -/
def checkoutBaseBranch (s : RunSettings) (repo : GitRepo) : List Effect :=
  if s.to_branch.name ∈ repo.heads then
    [.checkout s.to_branch.name]
  else
    [.createBranch s.to_branch.name s.to_branch.ref]

/-- `MigrateAddon._create_mig_branch` (lines 139-159): if the migration branch
already exists, ask whether to recreate it (deleting it first); create it from
the target reference.  Returns the `create_branch` flag and the effects. -/
def createMigBranch (s : RunSettings) (repo : GitRepo)
    (confirmRecreate : Bool) : Bool × List Effect :=
  if migBranchName s ∈ repo.heads then
    if confirmRecreate then
      (true,
       [.prompt (recreateMsg s), .deleteBranch (migBranchName s),
        .printMsg (createMigMsg s),
        .createBranch (migBranchName s) s.to_branch.ref])
    else
      (false, [.prompt (recreateMsg s)])
  else
    (true,
     [.printMsg (createMigMsg s),
      .createBranch (migBranchName s) s.to_branch.ref])

/-- `MigrateAddon._generate_patches` (lines 161-170): `git format-patch
--keep-subject -o <dir> <to_ref>..<from_ref> -- <addon>`, i.e. the patch
series for the commits between the target reference and the source reference
restricted to the addon path. -/
def generatePatchesEffects (s : RunSettings) : List Effect :=
  [.printMsg "\tGenerate patches...",
   .formatPatch s.to_branch.ref s.from_branch.ref s.addon]

/-- `MigrateAddon._apply_patches` (lines 172-182): `git am -3 --keep
<patches>`; the `-3` flag enables the three-way merge fallback and `--keep`
keeps the subjects. -/
def applyPatchesEffects : List Effect :=
  [.printMsg "\tApply patches...", .applyPatches true true]

/-- `MigrateAddon.run`, lines 98-101: when the user declines the migration,
`storage.blacklist_addon(confirm=True)` asks whether to blacklist the addon
and records it on a yes (making the storage dirty). -/
def declineEffects (s : RunSettings) (ctx : RunCtx) : List Effect :=
  if ctx.confirmMigrate then []
  else
    .prompt (blacklistPromptMsg s)
      :: (if ctx.confirmBlacklist then
            [.blacklistWrite s.addon s.to_branch.name]
          else [])

/-- `MigrateAddon.run`, lines 104-125: the part after the confirmation stage.
Requires `--fork`, refuses untracked files, checks out the base branch,
(re)creates the migration branch from the target reference, and — unless the
run only recorded a blacklist (`storageDirty`, in which case the pending
blacklist is committed) — generates and applies the patch series, runs
pre-commit and hands over to `PortAddonPullRequest` for follow-up commits
(modelled as an opaque `portFollowUp` effect, port_addon_pr.py is not in the
studied tree).  A `git am` failure propagates as an uncaught
`GitCommandError`, cutting the run short with no further effect. -/
def migrateWork (s : RunSettings) (repo : GitRepo) (ctx : RunCtx)
    (storageDirty : Bool) : RunResult × List Effect :=
  if strOptFalsy s.fork then
    (.error (.usageError "Please set the \x27--fork\x27 option"), [])
  else if !repo.untrackedFiles.isEmpty then
    (.error (.clickException "Untracked files detected, abort"), [])
  else
    let coEffs := checkoutBaseBranch s repo
    let cm := createMigBranch s (applyEffects repo coEffs) ctx.confirmRecreate
    if cm.1 then
      if storageDirty then
        (.ok false, coEffs ++ cm.2 ++ [.commitStorage, .printTips true])
      else if ctx.amOk then
        (.ok true,
         coEffs ++ cm.2 ++ generatePatchesEffects s ++ applyPatchesEffects
           ++ [.printMsg (migratedMsg s), .runPreCommit s.addon,
               .portFollowUp, .printTips false])
      else
        (.error (.gitCommandError "git am -3 --keep"),
         coEffs ++ cm.2 ++ generatePatchesEffects s ++ applyPatchesEffects)
    else
      (.ok true, coEffs ++ cm.2 ++ [.portFollowUp, .printTips false])

/-- `MigrateAddon.run` (migrate_addon.py, lines 73-125).

The blacklist store is consulted first; a blacklisted addon only produces a
message.  In non-interactive mode the code then evaluates
`self.settings.output` — the `Settings` dataclass of `utils/settings.py`
defines no `output` field and nothing ever assigns one, so this attribute
lookup raises `AttributeError` and the output / `SystemExit(100)` / `return
True` lines below it (84-92) are unreachable.  The interactive path asks for
confirmation; declining offers to blacklist the addon, which ends the run
unless the blacklist was actually written (`storage.dirty`); the rest of the
run is `migrateWork`. -/
def migrateRun (s : RunSettings) (repo : GitRepo) (ctx : RunCtx) :
    RunResult × List Effect :=
  let q : List Effect := [.queryBlacklist s.addon s.to_branch.name]
  match ctx.blacklisted with
  | some reason => (.ok false, q ++ [.printMsg (blacklistedMsg s reason)])
  | none =>
    if s.non_interactive then
      -- `if self.settings.output:` — AttributeError, see the doc comment
      (.error (.attributeError "Settings" "output"), q)
    else
      let tr0 := q ++ [.prompt (confirmMigrateMsg s)] ++ declineEffects s ctx
      if !ctx.confirmMigrate && !ctx.confirmBlacklist then (.ok false, tr0)
      else
        let w := migrateWork s repo ctx (!ctx.confirmMigrate && ctx.confirmBlacklist)
        (w.1, tr0 ++ w.2)

/-- Modelled from the spec: `PortAddonPullRequest.run` (port_addon_pr.py is
not in the studied tree).  Per §4.3 and §6 with the `Settings` docstring: in
non-interactive mode the port check never prompts and communicates through a
distinct exit status in CLI mode (110 when pull requests could be ported,
normal termination when the addon history is identical on both branches);
interactive mode asks the user for confirmation. -/
def portRun (s : RunSettings) (ctx : RunCtx) : RunResult × List Effect :=
  if s.non_interactive then
    if s.cli then
      if ctx.portsAvailable then (.exited 110, []) else (.ok false, [])
    else
      (.ok ctx.portsAvailable, [])
  else
    (.ok true, [.prompt "Port these pull requests?"])

/-- The verbose message of `App.fetch_branches` (lines 202-209). -/
def fetchMsg (b : Branch) (url : String) : String :=
  "Fetch " ++ bc.BOLD ++ b.ref ++ bc.END ++ " from " ++ url

/-- `App.fetch_branches` for one branch: nothing for a remote-less branch,
otherwise an optional verbose message and the fetch itself. -/
def fetchBranchEffects (s : RunSettings) (repo : GitRepo) (b : Branch) :
    List Effect :=
  match b.remote with
  | none => []
  | some r =>
    (if s.verbose then [Effect.printMsg (fetchMsg b (repo.remoteUrl r))] else [])
      ++ [.fetch r b.name]

/-- `App.fetch_branches` (lines 202-209), over source then target branch. -/
def fetchBranchesEffects (s : RunSettings) (repo : GitRepo) : List Effect :=
  fetchBranchEffects s repo s.from_branch ++ fetchBranchEffects s repo s.to_branch

/-- The `ValueError` message of `App._check_addon_exists` (lines 218-220). -/
def addonMissingMsg (s : RunSettings) : String :=
  bc.FAIL ++ s.addon ++ bc.ENDC ++ " does not exist on " ++ s.from_branch.ref

/-- `App._check_addon_exists` reduced to its condition: the addon is a
top-level directory of the tree at the branch reference. -/
def checkAddonExists (s : RunSettings) (repo : GitRepo) (b : Branch) : Bool :=
  s.addon ∈ repo.treeDirs b.ref

/-- Completion of `App.run` after a sub-run: on a normal return the cache is
cleared when `clear_cache` is set; an exception or `SystemExit` propagates
and skips it. -/
def appFinish (s : RunSettings) (r : RunResult × List Effect)
    (pre : List Effect) : RunResult × List Effect :=
  match r with
  | (.ok _, tr) =>
    (.ok true, pre ++ tr ++ (if s.clear_cache then [Effect.clearCache] else []))
  | (res, tr) => (res, pre ++ tr)

/-- `App.run` (oca_port/__init__.py, lines 231-254): fetch both branches,
raise if the addon is missing from the source branch tree, then either port
(`run_port`, when the addon exists on the target branch) or migrate
(`run_migrate`), and finally clear the cache when requested. -/
def appRun (s : RunSettings) (repo : GitRepo) (ctx : RunCtx) :
    RunResult × List Effect :=
  let fe := fetchBranchesEffects s repo
  if checkAddonExists s repo s.from_branch then
    if checkAddonExists s repo s.to_branch then
      appFinish s (portRun s ctx) (fe ++ [.invokePort])
    else
      appFinish s (migrateRun s repo ctx) (fe ++ [.invokeMigrate])
  else
    (.error (.valueError (addonMissingMsg s)), fe)

/-! ### Concrete inputs used by the witness theorems -/

/-- A clean repository whose source branch tree holds the addon and whose
target branch tree does not (Scenario C: migration). -/
def exRepo : GitRepo :=
  { remotes := ["origin", "camptocamp"]
    heads := ["15.0"]
    current := "15.0"
    treeDirs := fun r => if r = "origin/15.0" then ["shopfloor"] else []
    remoteUrl := fun _ => "https://github.com/OCA/wms.git"
    dirtyWorktree := false
    untrackedFiles := [] }

/-- Same repository with the addon present on both branch trees (port
scenario). -/
def exRepoBoth : GitRepo :=
  { exRepo with
    treeDirs := fun r =>
      if r = "origin/15.0" || r = "origin/16.0" then ["shopfloor"] else [] }

/-- Same repository with an untracked file (dirty for
`is_dirty(untracked_files=True)`). -/
def exRepoDirty : GitRepo :=
  { exRepo with untrackedFiles := ["scrap.txt"] }

/-- Same repository with the addon on neither branch tree. -/
def exRepoNoAddon : GitRepo :=
  { exRepo with treeDirs := fun _ => [] }

/-- Interactive run settings with a fork configured. -/
def exSettings : RunSettings :=
  { addon := "shopfloor"
    from_branch := ⟨"15.0", some "origin"⟩
    to_branch := ⟨"16.0", some "origin"⟩
    fork := some "camptocamp"
    upstream_org := "OCA"
    repo_name := "wms"
    user_org := "camptocamp"
    verbose := false
    non_interactive := false
    cli := false
    clear_cache := false }

/-- The same settings in non-interactive CLI mode. -/
def exSettingsNI : RunSettings :=
  { exSettings with non_interactive := true, cli := true }

/-- Collaborator answers for a nominal interactive migration: not
blacklisted, user confirms, `git am` succeeds. -/
def exCtx : RunCtx :=
  { blacklisted := none
    confirmMigrate := true
    confirmBlacklist := false
    confirmRecreate := false
    amOk := true
    portsAvailable := false }

/-- Collaborator answers where `git am` fails. -/
def exCtxAmFail : RunCtx :=
  { exCtx with amOk := false }

/-- Collaborator answers where the addon is blacklisted for the target
branch. -/
def exCtxBlacklisted : RunCtx :=
  { exCtx with blacklisted := some "Migration not wanted" }

/-- Constructor arguments for a nominal `Settings`. -/
def exArgs : SettingsArgs :=
  { from_branch := "15.0"
    to_branch := "16.0"
    addon := "shopfloor"
    repo_path := "/home/user/wms"
    fork := some "camptocamp"
    user_org := some "camptocamp" }

/-- Constructor arguments whose source branch names a remote that is not
configured on the repository. -/
def exArgsBadRemote : SettingsArgs :=
  { exArgs with from_branch := "upstream/15.0" }

/-! ### Helper lemmas (shared) -/

theorem checkoutBaseBranch_shape (s : RunSettings) (repo : GitRepo) :
    checkoutBaseBranch s repo = [Effect.checkout s.to_branch.name] ∨
      checkoutBaseBranch s repo
        = [Effect.createBranch s.to_branch.name s.to_branch.ref] := by
  unfold checkoutBaseBranch
  split
  · exact Or.inl rfl
  · exact Or.inr rfl

theorem mem_checkoutBaseBranch (s : RunSettings) (repo : GitRepo) {e : Effect}
    (he : e ∈ checkoutBaseBranch s repo) :
    e = Effect.checkout s.to_branch.name ∨
      e = Effect.createBranch s.to_branch.name s.to_branch.ref := by
  rcases checkoutBaseBranch_shape s repo with h | h <;> rw [h] at he <;>
    simp at he <;> simp [he]

theorem mem_createMigBranch (s : RunSettings) (repo : GitRepo) (b : Bool)
    {e : Effect} (he : e ∈ (createMigBranch s repo b).2) :
    e = Effect.prompt (recreateMsg s) ∨
      e = Effect.deleteBranch (migBranchName s) ∨
      e = Effect.printMsg (createMigMsg s) ∨
      e = Effect.createBranch (migBranchName s) s.to_branch.ref := by
  unfold createMigBranch at he
  repeat' split at he
  all_goals simp at he
  all_goals tauto

theorem createMigBranch_created (s : RunSettings) (repo : GitRepo) (b : Bool)
    (h : (createMigBranch s repo b).1 = true) :
    (createMigBranch s repo b).2
      = (createMigBranch s repo b).2.dropLast
          ++ [Effect.createBranch (migBranchName s) s.to_branch.ref] := by
  unfold createMigBranch at h ⊢
  by_cases h1 : migBranchName s ∈ repo.heads
  · cases hb : b
    · rw [hb] at h; simp [h1] at h
    · simp [h1, hb]
  · simp [h1]

theorem mem_declineEffects (s : RunSettings) (ctx : RunCtx) {e : Effect}
    (he : e ∈ declineEffects s ctx) :
    e = Effect.prompt (blacklistPromptMsg s) ∨
      e = Effect.blacklistWrite s.addon s.to_branch.name := by
  unfold declineEffects at he
  repeat' split at he
  all_goals simp_all

theorem declineEffects_no_invoke (s : RunSettings) (ctx : RunCtx) :
    Effect.invokePort ∉ declineEffects s ctx ∧
      Effect.invokeMigrate ∉ declineEffects s ctx := by
  constructor <;> intro h <;>
    rcases mem_declineEffects s ctx h with h2 | h2 <;> simp at h2

theorem migrateWork_no_invoke (s : RunSettings) (repo : GitRepo) (ctx : RunCtx)
    (d : Bool) :
    Effect.invokePort ∉ (migrateWork s repo ctx d).2 ∧
      Effect.invokeMigrate ∉ (migrateWork s repo ctx d).2 := by
  simp only [migrateWork, checkoutBaseBranch, createMigBranch,
    generatePatchesEffects, applyPatchesEffects]
  repeat' split
  all_goals simp

theorem migrateRun_no_invoke (s : RunSettings) (repo : GitRepo) (ctx : RunCtx) :
    Effect.invokePort ∉ (migrateRun s repo ctx).2 ∧
      Effect.invokeMigrate ∉ (migrateRun s repo ctx).2 := by
  have hw := migrateWork_no_invoke s repo ctx
    (!ctx.confirmMigrate && ctx.confirmBlacklist)
  have hd := declineEffects_no_invoke s ctx
  simp only [migrateRun]
  repeat' split
  all_goals simp_all

theorem portRun_no_invoke (s : RunSettings) (ctx : RunCtx) :
    Effect.invokePort ∉ (portRun s ctx).2 ∧
      Effect.invokeMigrate ∉ (portRun s ctx).2 := by
  unfold portRun
  repeat' split
  all_goals simp

theorem fetch_no_invoke (s : RunSettings) (repo : GitRepo) :
    Effect.invokePort ∉ fetchBranchesEffects s repo ∧
      Effect.invokeMigrate ∉ fetchBranchesEffects s repo := by
  unfold fetchBranchesEffects fetchBranchEffects
  cases s.from_branch.remote <;> cases s.to_branch.remote <;>
    repeat' split
  all_goals simp

theorem appFinish_trace (s : RunSettings) (r : RunResult × List Effect)
    (pre : List Effect) :
    ∃ post, (appFinish s r pre).2 = pre ++ r.2 ++ post ∧
      ∀ e ∈ post, e = Effect.clearCache := by
  rcases r with ⟨res, tr⟩
  cases res with
  | ok b =>
    refine ⟨if s.clear_cache then [Effect.clearCache] else [], rfl, ?_⟩
    split <;> simp
  | exited n => exact ⟨[], by simp [appFinish], by simp⟩
  | error e => exact ⟨[], by simp [appFinish], by simp⟩

theorem migrateWork_cases (s : RunSettings) (repo : GitRepo) (ctx : RunCtx)
    (d : Bool) :
    migrateWork s repo ctx d
        = (.error (.usageError "Please set the \x27--fork\x27 option"), []) ∨
    migrateWork s repo ctx d
        = (.error (.clickException "Untracked files detected, abort"), []) ∨
    ((createMigBranch s (applyEffects repo (checkoutBaseBranch s repo))
        ctx.confirmRecreate).1 = true ∧ d = true ∧
      migrateWork s repo ctx d
        = (.ok false,
           checkoutBaseBranch s repo
             ++ (createMigBranch s (applyEffects repo (checkoutBaseBranch s repo))
                  ctx.confirmRecreate).2
             ++ [.commitStorage, .printTips true])) ∨
    ((createMigBranch s (applyEffects repo (checkoutBaseBranch s repo))
        ctx.confirmRecreate).1 = true ∧ d = false ∧ ctx.amOk = true ∧
      migrateWork s repo ctx d
        = (.ok true,
           checkoutBaseBranch s repo
             ++ (createMigBranch s (applyEffects repo (checkoutBaseBranch s repo))
                  ctx.confirmRecreate).2
             ++ generatePatchesEffects s ++ applyPatchesEffects
             ++ [.printMsg (migratedMsg s), .runPreCommit s.addon,
                 .portFollowUp, .printTips false])) ∨
    ((createMigBranch s (applyEffects repo (checkoutBaseBranch s repo))
        ctx.confirmRecreate).1 = true ∧ d = false ∧ ctx.amOk = false ∧
      migrateWork s repo ctx d
        = (.error (.gitCommandError "git am -3 --keep"),
           checkoutBaseBranch s repo
             ++ (createMigBranch s (applyEffects repo (checkoutBaseBranch s repo))
                  ctx.confirmRecreate).2
             ++ generatePatchesEffects s ++ applyPatchesEffects)) ∨
    ((createMigBranch s (applyEffects repo (checkoutBaseBranch s repo))
        ctx.confirmRecreate).1 = false ∧
      migrateWork s repo ctx d
        = (.ok true,
           checkoutBaseBranch s repo
             ++ (createMigBranch s (applyEffects repo (checkoutBaseBranch s repo))
                  ctx.confirmRecreate).2
             ++ [.portFollowUp, .printTips false])) := by
  unfold migrateWork
  cases h1 : strOptFalsy s.fork with
  | true => exact Or.inl (by simp [h1])
  | false =>
    cases h2 : repo.untrackedFiles.isEmpty with
    | false => exact Or.inr (Or.inl (by simp [h1, h2]))
    | true =>
      cases h3 : (createMigBranch s (applyEffects repo (checkoutBaseBranch s repo))
          ctx.confirmRecreate).1 with
      | false =>
        exact Or.inr (Or.inr (Or.inr (Or.inr (Or.inr
          ⟨by simp [h3], by simp [h1, h2, h3]⟩))))
      | true =>
        cases hd : d with
        | true =>
          exact Or.inr (Or.inr (Or.inl
            ⟨by simp [h3], by simp [hd], by simp [h1, h2, h3, hd]⟩))
        | false =>
          cases ham : ctx.amOk with
          | true =>
            exact Or.inr (Or.inr (Or.inr (Or.inl
              ⟨by simp [h3], by simp [hd], by simp [ham],
               by simp [h1, h2, h3, hd, ham]⟩)))
          | false =>
            exact Or.inr (Or.inr (Or.inr (Or.inr (Or.inl
              ⟨by simp [h3], by simp [hd], by simp [ham],
               by simp [h1, h2, h3, hd, ham]⟩))))

theorem formatPatch_not_mem_base (s : RunSettings) (repo repo2 : GitRepo)
    (r : Bool) (a b c : String) :
    Effect.formatPatch a b c
      ∉ checkoutBaseBranch s repo ++ (createMigBranch s repo2 r).2 := by
  intro h
  rcases List.mem_append.mp h with h1 | h1
  · rcases mem_checkoutBaseBranch s repo h1 with h2 | h2 <;> simp at h2
  · rcases mem_createMigBranch s repo2 r h1 with h2 | h2 | h2 | h2 <;> simp at h2

theorem applyPatches_not_mem_base (s : RunSettings) (repo repo2 : GitRepo)
    (r : Bool) (x y : Bool) :
    Effect.applyPatches x y
      ∉ checkoutBaseBranch s repo ++ (createMigBranch s repo2 r).2 := by
  intro h
  rcases List.mem_append.mp h with h1 | h1
  · rcases mem_checkoutBaseBranch s repo h1 with h2 | h2 <;> simp at h2
  · rcases mem_createMigBranch s repo2 r h1 with h2 | h2 | h2 | h2 <;> simp at h2

theorem confirm_pre_mem (s : RunSettings) (ctx : RunCtx) (e : Effect)
    (he : e ∈ [Effect.queryBlacklist s.addon s.to_branch.name]
        ++ [Effect.prompt (confirmMigrateMsg s)] ++ declineEffects s ctx) :
    e = Effect.queryBlacklist s.addon s.to_branch.name ∨
      e = Effect.prompt (confirmMigrateMsg s) ∨
      e = Effect.prompt (blacklistPromptMsg s) ∨
      e = Effect.blacklistWrite s.addon s.to_branch.name := by
  simp at he
  rcases he with rfl | rfl | h2
  · tauto
  · tauto
  · rcases mem_declineEffects s ctx h2 with h3 | h3 <;> tauto

theorem migrateWork_patch_replay (s : RunSettings) (repo : GitRepo)
    (ctx : RunCtx) (d : Bool)
    (h : ∃ a b c, Effect.formatPatch a b c ∈ (migrateWork s repo ctx d).2) :
    ∃ l₁ l₂ l₃ l₄, (migrateWork s repo ctx d).2
      = l₁ ++ Effect.createBranch (migBranchName s) s.to_branch.ref
        :: (l₂ ++ Effect.formatPatch s.to_branch.ref s.from_branch.ref s.addon
        :: (l₃ ++ Effect.applyPatches true true :: l₄)) := by
  obtain ⟨a, b, c, hmem⟩ := h
  rcases migrateWork_cases s repo ctx d with
    h | h | ⟨h3, hd, h⟩ | ⟨h3, hd, ham, h⟩ | ⟨h3, hd, ham, h⟩ | ⟨h3, h⟩
  · rw [h] at hmem; simp at hmem
  · rw [h] at hmem; simp at hmem
  · exfalso
    rw [h] at hmem
    rcases List.mem_append.mp hmem with h1 | h1
    · exact formatPatch_not_mem_base s repo _ _ a b c h1
    · simp at h1
  · have hcm := createMigBranch_created s
      (applyEffects repo (checkoutBaseBranch s repo)) ctx.confirmRecreate h3
    refine ⟨checkoutBaseBranch s repo
        ++ (createMigBranch s (applyEffects repo (checkoutBaseBranch s repo))
            ctx.confirmRecreate).2.dropLast,
      [Effect.printMsg "\tGenerate patches..."],
      [Effect.printMsg "\tApply patches..."],
      [Effect.printMsg (migratedMsg s), Effect.runPreCommit s.addon,
       Effect.portFollowUp, Effect.printTips false], ?_⟩
    rw [h]
    conv_lhs => rw [hcm]
    simp [generatePatchesEffects, applyPatchesEffects]
  · have hcm := createMigBranch_created s
      (applyEffects repo (checkoutBaseBranch s repo)) ctx.confirmRecreate h3
    refine ⟨checkoutBaseBranch s repo
        ++ (createMigBranch s (applyEffects repo (checkoutBaseBranch s repo))
            ctx.confirmRecreate).2.dropLast,
      [Effect.printMsg "\tGenerate patches..."],
      [Effect.printMsg "\tApply patches..."], [], ?_⟩
    rw [h]
    conv_lhs => rw [hcm]
    simp [generatePatchesEffects, applyPatchesEffects]
  · exfalso
    rw [h] at hmem
    rcases List.mem_append.mp hmem with h1 | h1
    · exact formatPatch_not_mem_base s repo _ _ a b c h1
    · simp at h1

theorem migrateWork_am_fail (s : RunSettings) (repo : GitRepo) (ctx : RunCtx)
    (d : Bool)
    (hmem : Effect.applyPatches true true ∈ (migrateWork s repo ctx d).2)
    (ham : ctx.amOk = false) :
    (migrateWork s repo ctx d).1 = .error (.gitCommandError "git am -3 --keep")
      ∧ ∃ l, (migrateWork s repo ctx d).2
          = l ++ [Effect.applyPatches true true] := by
  rcases migrateWork_cases s repo ctx d with
    h | h | ⟨h3, hd, h⟩ | ⟨h3, hd, ham2, h⟩ | ⟨h3, hd, ham2, h⟩ | ⟨h3, h⟩
  · rw [h] at hmem; simp at hmem
  · rw [h] at hmem; simp at hmem
  · exfalso
    rw [h] at hmem
    rcases List.mem_append.mp hmem with h1 | h1
    · exact applyPatches_not_mem_base s repo _ _ true true h1
    · simp at h1
  · exact absurd ham2 (by simp [ham])
  · constructor
    · rw [h]
    · refine ⟨checkoutBaseBranch s repo
          ++ (createMigBranch s (applyEffects repo (checkoutBaseBranch s repo))
              ctx.confirmRecreate).2
          ++ generatePatchesEffects s
          ++ [Effect.printMsg "\tApply patches..."], ?_⟩
      rw [h]
      simp [generatePatchesEffects, applyPatchesEffects]
  · exfalso
    rw [h] at hmem
    rcases List.mem_append.mp hmem with h1 | h1
    · exact applyPatches_not_mem_base s repo _ _ true true h1
    · simp at h1

theorem strAppendAssoc (a b c : String) : a ++ b ++ c = a ++ (b ++ c) := by
  apply String.ext
  simp

/-! ### Claims -/

/-- C1: for every run whose addon exists on the source branch, `App.run`
takes exactly one of the two paths, determined solely by whether the addon
directory exists in the target branch's top-level tree: the port path
(`PortAddonPullRequest`) is entered and the migration path never is when the
addon exists on the target branch, and the migration path (`MigrateAddon`)
is entered and the port path never is when it does not. -/
theorem appRun_exclusive_path (s : RunSettings) (repo : GitRepo) (ctx : RunCtx)
    (h : checkAddonExists s repo s.from_branch = true) :
    (checkAddonExists s repo s.to_branch = true →
      Effect.invokePort ∈ (appRun s repo ctx).2 ∧
        Effect.invokeMigrate ∉ (appRun s repo ctx).2) ∧
    (checkAddonExists s repo s.to_branch = false →
      Effect.invokeMigrate ∈ (appRun s repo ctx).2 ∧
        Effect.invokePort ∉ (appRun s repo ctx).2) := by
  have hp := portRun_no_invoke s ctx
  have hm := migrateRun_no_invoke s repo ctx
  have hf := fetch_no_invoke s repo
  constructor <;> intro h2
  · obtain ⟨post, hpost, hcc⟩ := appFinish_trace s (portRun s ctx)
      (fetchBranchesEffects s repo ++ [.invokePort])
    have htr : appRun s repo ctx
        = appFinish s (portRun s ctx)
            (fetchBranchesEffects s repo ++ [.invokePort]) := by
      simp [appRun, h, h2]
    rw [htr, hpost]
    constructor
    · simp
    · intro hmem
      rcases List.mem_append.mp hmem with h3 | h3
      · rcases List.mem_append.mp h3 with h4 | h4
        · rcases List.mem_append.mp h4 with h5 | h5
          · exact hf.2 h5
          · simp at h5
        · exact hp.2 h4
      · exact absurd (hcc _ h3) (by simp)
  · obtain ⟨post, hpost, hcc⟩ := appFinish_trace s (migrateRun s repo ctx)
      (fetchBranchesEffects s repo ++ [.invokeMigrate])
    have htr : appRun s repo ctx
        = appFinish s (migrateRun s repo ctx)
            (fetchBranchesEffects s repo ++ [.invokeMigrate]) := by
      simp [appRun, h, h2]
    rw [htr, hpost]
    constructor
    · simp
    · intro hmem
      rcases List.mem_append.mp hmem with h3 | h3
      · rcases List.mem_append.mp h3 with h4 | h4
        · rcases List.mem_append.mp h4 with h5 | h5
          · exact hf.1 h5
          · simp at h5
        · exact hm.1 h4
      · exact absurd (hcc _ h3) (by simp)

/-- C1 witness: on a concrete repository where `shopfloor` exists on the
source branch only, the migration path is entered and the port path is not. -/
theorem appRun_exclusive_path_witness :
    checkAddonExists exSettings exRepo exSettings.from_branch = true ∧
      (checkAddonExists exSettings exRepo exSettings.to_branch = true →
        Effect.invokePort ∈ (appRun exSettings exRepo exCtx).2 ∧
          Effect.invokeMigrate ∉ (appRun exSettings exRepo exCtx).2) ∧
      (checkAddonExists exSettings exRepo exSettings.to_branch = false →
        Effect.invokeMigrate ∈ (appRun exSettings exRepo exCtx).2 ∧
          Effect.invokePort ∉ (appRun exSettings exRepo exCtx).2) :=
  ⟨by decide, appRun_exclusive_path exSettings exRepo exCtx (by decide)⟩

/-- C10: when the addon is absent from the source branch's top-level tree,
`App.run` raises a `ValueError` naming the addon and the source branch
reference, and neither the port path nor the migration path is entered. -/
theorem appRun_missing_addon (s : RunSettings) (repo : GitRepo) (ctx : RunCtx)
    (h : checkAddonExists s repo s.from_branch = false) :
    (appRun s repo ctx).1 = .error (.valueError (addonMissingMsg s)) ∧
      Effect.invokePort ∉ (appRun s repo ctx).2 ∧
      Effect.invokeMigrate ∉ (appRun s repo ctx).2 ∧
      (∃ u v, addonMissingMsg s = u ++ s.addon ++ v) ∧
      (∃ u v, addonMissingMsg s = u ++ s.from_branch.ref ++ v) := by
  have hf := fetch_no_invoke s repo
  have htr : appRun s repo ctx
      = (.error (.valueError (addonMissingMsg s)), fetchBranchesEffects s repo) := by
    simp [appRun, h]
  refine ⟨by rw [htr], by rw [htr]; exact hf.1, by rw [htr]; exact hf.2, ?_, ?_⟩
  · exact ⟨bc.FAIL, bc.ENDC ++ " does not exist on " ++ s.from_branch.ref,
      by simp [addonMissingMsg, strAppendAssoc]⟩
  · exact ⟨bc.FAIL ++ s.addon ++ bc.ENDC ++ " does not exist on ", "",
      by simp [addonMissingMsg, strAppendAssoc]⟩

/-- C10 witness: a repository whose branch trees are empty rejects the run
with the `ValueError`, entering no path. -/
theorem appRun_missing_addon_witness :
    checkAddonExists exSettings exRepoNoAddon exSettings.from_branch = false ∧
      ((appRun exSettings exRepoNoAddon exCtx).1
          = .error (.valueError (addonMissingMsg exSettings)) ∧
        Effect.invokePort ∉ (appRun exSettings exRepoNoAddon exCtx).2 ∧
        Effect.invokeMigrate ∉ (appRun exSettings exRepoNoAddon exCtx).2 ∧
        (∃ u v, addonMissingMsg exSettings = u ++ exSettings.addon ++ v) ∧
        (∃ u v, addonMissingMsg exSettings
            = u ++ exSettings.from_branch.ref ++ v)) :=
  ⟨by decide, appRun_missing_addon exSettings exRepoNoAddon exCtx (by decide)⟩

/-- C8: the blacklist store is consulted at the start of every migration run
(the trace of `MigrateAddon.run` always begins with the query), and when the
addon+target-branch pair is blacklisted the run returns `False` having only
printed a message: no branch is created or deleted, no checkout happens, no
patch is generated or applied, and the repository's branch state is
unchanged. -/
theorem migrate_blacklisted_frame (s : RunSettings) (repo : GitRepo)
    (ctx : RunCtx) (r : String) (h : ctx.blacklisted = some r) :
    (∀ ctx' : RunCtx, (migrateRun s repo ctx').2.head?
        = some (.queryBlacklist s.addon s.to_branch.name)) ∧
    (migrateRun s repo ctx).1 = .ok false ∧
    (migrateRun s repo ctx).2
      = [.queryBlacklist s.addon s.to_branch.name,
         .printMsg (blacklistedMsg s r)] ∧
    (∀ e ∈ (migrateRun s repo ctx).2, e.mutatesRepo = false) ∧
    applyEffects repo (migrateRun s repo ctx).2 = repo := by
  have htr : migrateRun s repo ctx
      = (.ok false,
         [.queryBlacklist s.addon s.to_branch.name,
          .printMsg (blacklistedMsg s r)]) := by
    simp [migrateRun, h]
  refine ⟨?_, by rw [htr], by rw [htr], ?_, ?_⟩
  · intro ctx'
    simp only [migrateRun]
    repeat' split
    all_goals simp
  · rw [htr]
    intro e he
    simp at he
    rcases he with rfl | rfl <;> rfl
  · rw [htr]
    rfl

/-- C8 witness: a concrete blacklisted run only queries and prints. -/
theorem migrate_blacklisted_frame_witness :
    exCtxBlacklisted.blacklisted = some "Migration not wanted" ∧
      ((∀ ctx' : RunCtx, (migrateRun exSettings exRepo ctx').2.head?
          = some (.queryBlacklist exSettings.addon exSettings.to_branch.name)) ∧
        (migrateRun exSettings exRepo exCtxBlacklisted).1 = .ok false ∧
        (migrateRun exSettings exRepo exCtxBlacklisted).2
          = [.queryBlacklist exSettings.addon exSettings.to_branch.name,
             .printMsg (blacklistedMsg exSettings "Migration not wanted")] ∧
        (∀ e ∈ (migrateRun exSettings exRepo exCtxBlacklisted).2,
          e.mutatesRepo = false) ∧
        applyEffects exRepo (migrateRun exSettings exRepo exCtxBlacklisted).2
          = exRepo) :=
  ⟨rfl, migrate_blacklisted_frame exSettings exRepo exCtxBlacklisted
    "Migration not wanted" rfl⟩

/-- C9: every `Settings` constructed with `cli` left `False` — every caller
other than the CLI entry point, including the `App` library interface, which
never passes `cli` — has `non_interactive = True` after construction,
whatever value was passed for it. -/
theorem settings_cli_false_forces_non_interactive (a : SettingsArgs)
    (repo : GitRepo) (s : Settings) (hcli : a.cli = false)
    (h : (settingsInit a repo).1 = .ok s) :
    s.non_interactive = true := by
  unfold settingsInit at h
  repeat' split at h
  all_goals simp_all [mkSettings]
  all_goals (cases h; rfl)

/-- C9 witness: a concrete successful construction with `cli = false` and
`non_interactive` passed as `false` still yields `non_interactive = true`. -/
theorem settings_cli_false_forces_non_interactive_witness :
    exArgs.cli = false ∧ exArgs.non_interactive = false ∧
      ∃ s, (settingsInit exArgs exRepo).1 = .ok s ∧ s.non_interactive = true := by
  refine ⟨rfl, rfl, ?_⟩
  have hok : (settingsInit exArgs exRepo).1.isOk = true := by decide
  cases hs : (settingsInit exArgs exRepo).1 with
  | error e => rw [hs] at hok; simp [Except.isOk, Except.toBool] at hok
  | ok s =>
    exact ⟨s, rfl,
      settings_cli_false_forces_non_interactive exArgs exRepo s rfl hs⟩

/-- C5: a repository with uncommitted changes — untracked files included —
makes `Settings` construction fail with an error, and the construction
performs no mutating repository operation whatsoever (its only effect is
opening the repository), so the engine refuses to start before any branch
creation or checkout. -/
theorem settings_dirty_refuses (a : SettingsArgs) (repo : GitRepo)
    (h : repo.isDirtyAll = true) :
    (∃ e, (settingsInit a repo).1 = .error e) ∧
      ∀ eff ∈ (settingsInit a repo).2, eff.mutatesRepo = false := by
  unfold settingsInit
  by_cases hp : a.repo_path = ""
  · simp [hp, Effect.mutatesRepo]
  · simp [hp, h, Effect.mutatesRepo]

/-- C5 witness: a repository holding one untracked file is refused. -/
theorem settings_dirty_refuses_witness :
    exRepoDirty.isDirtyAll = true ∧
      ((∃ e, (settingsInit exArgs exRepoDirty).1 = .error e) ∧
        ∀ eff ∈ (settingsInit exArgs exRepoDirty).2,
          eff.mutatesRepo = false) :=
  ⟨by decide, settings_dirty_refuses exArgs exRepoDirty (by decide)⟩

theorem mkBranch_error_not_remote (repo : GitRepo) (n d r : String)
    (h : mkBranch repo n d = .error r) : r ∉ repo.remotes := by
  unfold mkBranch at h
  repeat' split at h
  all_goals simp_all

/-- C6: when a branch string (source or target) cannot be resolved, the
`Settings` construction fails with a `RemoteBranchValueError` carrying the
exact remote name that failed, and the CLI error message built by
`prepare_remote_error_msg` names that remote together with the `git remote
add` remediation command. -/
theorem settings_remote_branch_error (a : SettingsArgs) (repo : GitRepo)
    (r : String) (hpath : ¬a.repo_path = "") (hclean : repo.isDirtyAll = false)
    (hfork : strOptFalsy a.fork = true ∨ (a.fork.getD "") ∈ repo.remotes)
    (hfail : mkBranch repo a.from_branch a.upstream = .error r ∨
      ((∃ b, mkBranch repo a.from_branch a.upstream = .ok b) ∧
        mkBranch repo a.to_branch a.upstream = .error r)) :
    (settingsInit a repo).1
        = .error (.remoteBranchValueError (settingsRepoName a) r) ∧
      (∃ u v, prepare_remote_error_msg (settingsRepoName a) r
          = u ++ ("$ git remote add " ++ r) ++ v) := by
  constructor
  · have hforkc : ¬(strOptFalsy a.fork = false ∧ (a.fork.getD "") ∉ repo.remotes) := by
      rcases hfork with h1 | h1 <;> simp [h1]
    rcases hfail with he | ⟨⟨b, hb⟩, he⟩
    · have hr := mkBranch_error_not_remote repo a.from_branch a.upstream r he
      simp [settingsInit, hpath, hclean, hforkc, he, hr]
    · have hr := mkBranch_error_not_remote repo a.to_branch a.upstream r he
      simp [settingsInit, hpath, hclean, hforkc, hb, he, hr]
  · refine ⟨"No remote " ++ bc.FAIL ++ r ++ bc.END
        ++ " in the current repository.\n"
        ++ "To add it:\n"
        ++ "\t# This mode requires an SSH key in the GitHub account\n"
        ++ "\t" ++ bc.DIM,
      " git@github.com:" ++ r ++ "/" ++ settingsRepoName a ++ ".git" ++ bc.END
        ++ "\n"
        ++ "   Or:\n"
        ++ "\t# This will require to enter user/password each time\n"
        ++ "\t" ++ bc.DIM ++ "$ git remote add " ++ r ++ " "
        ++ "https://github.com/" ++ r ++ "/" ++ settingsRepoName a ++ ".git"
        ++ bc.END, ?_⟩
    simp [prepare_remote_error_msg, strAppendAssoc]

/-- C6 witness: the source branch `upstream/15.0` names a remote that is not
configured; construction fails with `RemoteBranchValueError` carrying
`upstream` and the message contains the remediation command. -/
theorem settings_remote_branch_error_witness :
    ¬exArgsBadRemote.repo_path = "" ∧ exRepo.isDirtyAll = false ∧
      ((exArgsBadRemote.fork.getD "") ∈ exRepo.remotes) ∧
      mkBranch exRepo exArgsBadRemote.from_branch exArgsBadRemote.upstream
        = .error "upstream" ∧
      ((settingsInit exArgsBadRemote exRepo).1
          = .error (.remoteBranchValueError
              (settingsRepoName exArgsBadRemote) "upstream") ∧
        ∃ u v, prepare_remote_error_msg (settingsRepoName exArgsBadRemote)
            "upstream" = u ++ ("$ git remote add " ++ "upstream") ++ v) :=
  ⟨by decide, by decide, by decide, by decide,
    settings_remote_branch_error exArgsBadRemote exRepo "upstream"
      (by decide) (by decide) (Or.inr (by decide)) (Or.inl (by decide))⟩

/-- C3: every migration run that reaches patch replay first created the
migration branch from the target branch reference, then generated the patch
series for the commits between the target reference and the source reference
restricted to the addon path (`git format-patch <to_ref>..<from_ref> --
<addon>`), then applied the patches in order with the three-way merge
fallback enabled (`git am -3 --keep`). -/
theorem migrate_patch_replay (s : RunSettings) (repo : GitRepo) (ctx : RunCtx)
    (h : ∃ a b c, Effect.formatPatch a b c ∈ (migrateRun s repo ctx).2) :
    ∃ l₁ l₂ l₃ l₄, (migrateRun s repo ctx).2
      = l₁ ++ Effect.createBranch (migBranchName s) s.to_branch.ref
        :: (l₂ ++ Effect.formatPatch s.to_branch.ref s.from_branch.ref s.addon
        :: (l₃ ++ Effect.applyPatches true true :: l₄)) := by
  obtain ⟨a, b, c, hmem⟩ := h
  cases hb : ctx.blacklisted with
  | some r =>
    have htr : (migrateRun s repo ctx).2
        = [.queryBlacklist s.addon s.to_branch.name,
           .printMsg (blacklistedMsg s r)] := by
      simp [migrateRun, hb]
    rw [htr] at hmem
    simp at hmem
  | none =>
    cases hni : s.non_interactive with
    | true =>
      have htr : (migrateRun s repo ctx).2
          = [.queryBlacklist s.addon s.to_branch.name] := by
        simp [migrateRun, hb, hni]
      rw [htr] at hmem
      simp at hmem
    | false =>
      cases hcc : !ctx.confirmMigrate && !ctx.confirmBlacklist with
      | true =>
        have htr : (migrateRun s repo ctx).2
            = [Effect.queryBlacklist s.addon s.to_branch.name]
              ++ [Effect.prompt (confirmMigrateMsg s)]
              ++ declineEffects s ctx := by
          simp [migrateRun, hb, hni, hcc]
        rw [htr] at hmem
        rcases confirm_pre_mem s ctx _ hmem with h1 | h1 | h1 | h1 <;> simp at h1
      | false =>
        have htr : (migrateRun s repo ctx).2
            = ([Effect.queryBlacklist s.addon s.to_branch.name]
                ++ [Effect.prompt (confirmMigrateMsg s)]
                ++ declineEffects s ctx)
              ++ (migrateWork s repo ctx
                    (!ctx.confirmMigrate && ctx.confirmBlacklist)).2 := by
          simp [migrateRun, hb, hni, hcc]
        rw [htr] at hmem
        rcases List.mem_append.mp hmem with h1 | h1
        · rcases confirm_pre_mem s ctx _ h1 with h2 | h2 | h2 | h2 <;>
            simp at h2
        · obtain ⟨l₁, l₂, l₃, l₄, hw⟩ :=
            migrateWork_patch_replay s repo ctx _ ⟨a, b, c, h1⟩
          refine ⟨([Effect.queryBlacklist s.addon s.to_branch.name]
              ++ [Effect.prompt (confirmMigrateMsg s)]
              ++ declineEffects s ctx) ++ l₁, l₂, l₃, l₄, ?_⟩
          rw [htr, hw]
          simp

/-- C3 witness: a nominal interactive migration reaches patch replay and its
trace shows branch creation, patch generation and three-way application in
order. -/
theorem migrate_patch_replay_witness :
    (∃ a b c, Effect.formatPatch a b c
        ∈ (migrateRun exSettings exRepo exCtx).2) ∧
      ∃ l₁ l₂ l₃ l₄, (migrateRun exSettings exRepo exCtx).2
        = l₁ ++ Effect.createBranch (migBranchName exSettings)
              exSettings.to_branch.ref
          :: (l₂ ++ Effect.formatPatch exSettings.to_branch.ref
                exSettings.from_branch.ref exSettings.addon
          :: (l₃ ++ Effect.applyPatches true true :: l₄)) :=
  ⟨⟨"origin/16.0", "origin/15.0", "shopfloor", by decide⟩,
    migrate_patch_replay exSettings exRepo exCtx
      ⟨"origin/16.0", "origin/15.0", "shopfloor", by decide⟩⟩

/-- C4: when `git am` fails during a migration run that reached patch
application, the run aborts with the uncaught `GitCommandError`: the trace
ends at the failed application (no rollback of the partially-applied branch
is attempted, no further effect happens) and the run never reports
success. -/
theorem migrate_apply_failure_aborts (s : RunSettings) (repo : GitRepo)
    (ctx : RunCtx)
    (hmem : Effect.applyPatches true true ∈ (migrateRun s repo ctx).2)
    (ham : ctx.amOk = false) :
    (migrateRun s repo ctx).1 = .error (.gitCommandError "git am -3 --keep") ∧
      (∃ l, (migrateRun s repo ctx).2
          = l ++ [Effect.applyPatches true true]) ∧
      ∀ b, (migrateRun s repo ctx).1 ≠ .ok b := by
  cases hb : ctx.blacklisted with
  | some r =>
    have htr : (migrateRun s repo ctx).2
        = [.queryBlacklist s.addon s.to_branch.name,
           .printMsg (blacklistedMsg s r)] := by
      simp [migrateRun, hb]
    rw [htr] at hmem
    simp at hmem
  | none =>
    cases hni : s.non_interactive with
    | true =>
      have htr : (migrateRun s repo ctx).2
          = [.queryBlacklist s.addon s.to_branch.name] := by
        simp [migrateRun, hb, hni]
      rw [htr] at hmem
      simp at hmem
    | false =>
      cases hcc : !ctx.confirmMigrate && !ctx.confirmBlacklist with
      | true =>
        have htr : (migrateRun s repo ctx).2
            = [Effect.queryBlacklist s.addon s.to_branch.name]
              ++ [Effect.prompt (confirmMigrateMsg s)]
              ++ declineEffects s ctx := by
          simp [migrateRun, hb, hni, hcc]
        rw [htr] at hmem
        rcases confirm_pre_mem s ctx _ hmem with h1 | h1 | h1 | h1 <;> simp at h1
      | false =>
        have htr : (migrateRun s repo ctx).2
            = ([Effect.queryBlacklist s.addon s.to_branch.name]
                ++ [Effect.prompt (confirmMigrateMsg s)]
                ++ declineEffects s ctx)
              ++ (migrateWork s repo ctx
                    (!ctx.confirmMigrate && ctx.confirmBlacklist)).2 := by
          simp [migrateRun, hb, hni, hcc]
        have hres : (migrateRun s repo ctx).1
            = (migrateWork s repo ctx
                (!ctx.confirmMigrate && ctx.confirmBlacklist)).1 := by
          simp [migrateRun, hb, hni, hcc]
        rw [htr] at hmem
        rcases List.mem_append.mp hmem with h1 | h1
        · rcases confirm_pre_mem s ctx _ h1 with h2 | h2 | h2 | h2 <;>
            simp at h2
        · obtain ⟨he, l, hl⟩ := migrateWork_am_fail s repo ctx _ h1 ham
          refine ⟨by rw [hres, he], ?_, ?_⟩
          · refine ⟨([Effect.queryBlacklist s.addon s.to_branch.name]
                ++ [Effect.prompt (confirmMigrateMsg s)]
                ++ declineEffects s ctx) ++ l, ?_⟩
            rw [htr, hl]
            simp
          · intro b hbad
            rw [hres, he] at hbad
            cases hbad

/-- C4 witness: a concrete run where `git am` fails ends right after the
failed three-way application with a `GitCommandError` and no success. -/
theorem migrate_apply_failure_aborts_witness :
    Effect.applyPatches true true
        ∈ (migrateRun exSettings exRepo exCtxAmFail).2 ∧
      exCtxAmFail.amOk = false ∧
      ((migrateRun exSettings exRepo exCtxAmFail).1
          = .error (.gitCommandError "git am -3 --keep") ∧
        (∃ l, (migrateRun exSettings exRepo exCtxAmFail).2
            = l ++ [Effect.applyPatches true true]) ∧
        ∀ b, (migrateRun exSettings exRepo exCtxAmFail).1 ≠ .ok b) :=
  ⟨by decide, rfl,
    migrate_apply_failure_aborts exSettings exRepo exCtxAmFail (by decide) rfl⟩

/-- C2 (code bug): a non-interactive CLI run that is eligible for migration
(the addon is not blacklisted) never reaches the documented `SystemExit(100)`
— `MigrateAddon.run` first evaluates `self.settings.output`, and the
`Settings` dataclass of `utils/settings.py` defines no `output` field, so the
run dies with `AttributeError` right after the blacklist query instead of
terminating with a status in the 100-113 band. -/
theorem migrate_non_interactive_attribute_crash :
    migrateRun exSettingsNI exRepo exCtx
      = (.error (.attributeError "Settings" "output"),
         [.queryBlacklist "shopfloor" "16.0"]) := rfl

/-- C7 (code bug): the concrete non-interactive migrate-eligible run issues
no confirmation prompt, but it does not terminate with a defined exit status
or return value either: it raises `AttributeError` because `Settings` has no
`output` field. -/
theorem appRun_non_interactive_crash :
    (appRun exSettingsNI exRepo exCtx).1
        = .error (.attributeError "Settings" "output") ∧
      ∀ m, Effect.prompt m ∉ (appRun exSettingsNI exRepo exCtx).2 := by
  have htr : (appRun exSettingsNI exRepo exCtx).2
      = [.fetch "origin" "15.0", .fetch "origin" "16.0", .invokeMigrate,
         .queryBlacklist "shopfloor" "16.0"] := by rfl
  exact ⟨rfl, fun m => by rw [htr]; simp⟩

end OcaPort
